import Mathlib

/-!
Verification of the graphics3d library (graphics3d.py): a parallel-projection
3D graphics engine.  The definitions below are a shallow embedding of the
Python source into Lean: Python floats are idealised as real numbers, Python
exceptions are modelled explicitly (an operation that can raise returns an
Except value, or a state paired with an optional raised error), and the
mutable objects of the source become explicit state passing.
-/

namespace Graphics3d

/-! ## Vector (source class Vector, graphics3d.py lines 64-127) -/

/-- Mathematical vector object for doing spatial calculations in 3D. -/
structure Vector where
  x : ℝ
  y : ℝ
  z : ℝ

/-- Vector.__neg__ -/
def Vector.neg (v : Vector) : Vector := ⟨-v.x, -v.y, -v.z⟩

instance : Neg Vector := ⟨Vector.neg⟩

/-- Vector.__add__ -/
def Vector.add (a b : Vector) : Vector := ⟨a.x + b.x, a.y + b.y, a.z + b.z⟩

instance : Add Vector := ⟨Vector.add⟩

/-- Vector.__sub__ : self + (-other) -/
def Vector.sub (a b : Vector) : Vector := a + (-b)

instance : Sub Vector := ⟨Vector.sub⟩

/-- Vector.__mul__ / __rmul__ : scalar times vector, componentwise. -/
def Vector.smul (r : ℝ) (v : Vector) : Vector := ⟨r * v.x, r * v.y, r * v.z⟩

instance : HMul ℝ Vector Vector := ⟨Vector.smul⟩

/-- Vector.__truediv__ : (1.0 / other) * self -/
noncomputable def Vector.div (v : Vector) (r : ℝ) : Vector := (1.0 / r) * v

noncomputable instance : HDiv Vector ℝ Vector := ⟨Vector.div⟩

/-- math.hypot over the reals. -/
noncomputable def hypot (a b : ℝ) : ℝ := Real.sqrt (a ^ 2 + b ^ 2)

/-- Vector.mag : nested hypotenuse. -/
noncomputable def Vector.mag (v : Vector) : ℝ := hypot (hypot v.x v.y) v.z

/-- Vector.unit : the vector rescaled to magnitude 1. -/
noncomputable def Vector.unit (v : Vector) : Vector := v / v.mag

/-- Vector.dot -/
def Vector.dot (a b : Vector) : ℝ := a.x * b.x + a.y * b.y + a.z * b.z

/-- Vector.cross -/
def Vector.cross (a b : Vector) : Vector :=
  ⟨a.y * b.z - a.z * b.y, a.z * b.x - a.x * b.z, a.x * b.y - a.y * b.x⟩

/-- Vector.copy -/
def Vector.copy (v : Vector) : Vector := ⟨v.x, v.y, v.z⟩

@[simp] theorem Vector.neg_x (v : Vector) : (-v).x = -v.x := rfl
@[simp] theorem Vector.neg_y (v : Vector) : (-v).y = -v.y := rfl
@[simp] theorem Vector.neg_z (v : Vector) : (-v).z = -v.z := rfl
@[simp] theorem Vector.add_x (a b : Vector) : (a + b).x = a.x + b.x := rfl
@[simp] theorem Vector.add_y (a b : Vector) : (a + b).y = a.y + b.y := rfl
@[simp] theorem Vector.add_z (a b : Vector) : (a + b).z = a.z + b.z := rfl
@[simp] theorem Vector.smul_x (r : ℝ) (v : Vector) : (r * v).x = r * v.x := rfl
@[simp] theorem Vector.smul_y (r : ℝ) (v : Vector) : (r * v).y = r * v.y := rfl
@[simp] theorem Vector.smul_z (r : ℝ) (v : Vector) : (r * v).z = r * v.z := rfl
@[simp] theorem Vector.div_x (v : Vector) (r : ℝ) : (v / r).x = (1.0 / r) * v.x := rfl
@[simp] theorem Vector.div_y (v : Vector) (r : ℝ) : (v / r).y = (1.0 / r) * v.y := rfl
@[simp] theorem Vector.div_z (v : Vector) (r : ℝ) : (v / r).z = (1.0 / r) * v.z := rfl
@[simp] theorem Vector.copy_x (v : Vector) : v.copy.x = v.x := rfl
@[simp] theorem Vector.copy_y (v : Vector) : v.copy.y = v.y := rfl
@[simp] theorem Vector.copy_z (v : Vector) : v.copy.z = v.z := rfl

/-! ## Camera (source class Camera, graphics3d.py lines 195-251) -/

/-- Internal class for 3D view rotations and parallel projections.  Its state
is the three unit basis vectors computed by the constructor. -/
structure Camera where
  ux : Vector
  uy : Vector
  uz : Vector

/-- math.radians : degrees to radians. -/
noncomputable def radians (deg : ℝ) : ℝ := deg * Real.pi / 180

/-- Camera.__init__ : build the basis from azimuth, altitude and roll angles
(degrees), composing the three elementary rotations exactly as in the source
(lines 198-237). -/
noncomputable def Camera.init (az_angle alt_angle roll_angle : ℝ) : Camera :=
  let az := radians az_angle
  let alt := radians alt_angle
  let roll := radians roll_angle
  let sz := Real.sin az
  let cz := Real.cos az
  let sl := Real.sin alt
  let cl := Real.cos alt
  let sr := Real.sin roll
  let cr := Real.cos roll
  let ux0 : Vector := ⟨0, 1, 0⟩
  let uy0 : Vector := ⟨0, 0, -1⟩
  let uz0 : Vector := ⟨-1, 0, 0⟩
  let ux1 := cz * ux0 + sz * uz0
  let uy1 := uy0.copy
  let uz1 := (-sz) * ux0 + cz * uz0
  let ux2 := ux1.copy
  let uy2 := cl * uy1 + (-sl) * uz1
  let uz2 := sl * uy1 + cl * uz1
  { ux := cr * ux2 + sr * uy2
    uy := (-sr) * ux2 + cr * uy2
    uz := uz2.copy }

/-- Camera.project : projected (window) coordinates from x, y, z in 3d space.
The projected z coordinate represents distance "into" the screen. -/
def Camera.project (c : Camera) (x y z : ℝ) : ℝ × ℝ × ℝ :=
  let xyz : Vector := ⟨x, y, z⟩
  (xyz.dot c.ux, xyz.dot c.uy, xyz.dot c.uz)

/-- Camera.invert : invert the projection back to x, y, z in 3d space. -/
def Camera.invert (c : Camera) (xp yp zp : ℝ) : ℝ × ℝ × ℝ :=
  let xyz := xp * c.ux + yp * c.uy + zp * c.uz
  (xyz.x, xyz.y, xyz.z)

/-! ## Errors

Python exceptions that the modelled code can raise. -/

/-- The exceptions raised by the modelled code paths: AttributeError (missing
attribute, e.g. calling a method on None or on an object lacking it),
NameError (reference to an undefined local name), and GraphicsError
(raised by the toolkit for a bad style option, BAD_OPTION). -/
inductive PyError where
  | attributeError : PyError
  | nameError : PyError
  | graphicsError : PyError
deriving DecidableEq

/-! ## Style defaults

Modelled from the spec: these are the default style values of the external
2D graphics toolkit (DEFAULT_CONFIG in Zelle's graphics module, which this
repository imports with "from graphics import *" and which is not part of
src/).  The spec treats the toolkit as an external collaborator providing
styles (fill color, outline color, line width, arrow decorations). -/

def DEFAULT_FILL : String := ""

def DEFAULT_OUTLINE : String := "black"

def DEFAULT_WIDTH : String := "1"

def DEFAULT_ARROW : String := "none"

/-! ## 3D primitives (graphics3d.py lines 303-452)

Each class owns its defining coordinates plus the style options it was
constructed with (its config dict keys).  The config dicts become explicit
String fields, one per option key. -/

/-- Point3d (source lines 303-343): coordinates plus the config options
["outline", "fill"]. -/
structure Point3d where
  x : ℝ
  y : ℝ
  z : ℝ
  outline : String
  fill : String

/-- Point3d.__init__ : coordinates with the toolkit's default style. -/
def Point3d.init (x y z : ℝ) : Point3d :=
  ⟨x, y, z, DEFAULT_OUTLINE, DEFAULT_FILL⟩

instance : Inhabited Point3d := ⟨Point3d.init 0 0 0⟩

/-- Point3d.clone : a new Point3d with the same coordinates, then
other.config = self.config.copy(). -/
def Point3d.clone (p : Point3d) : Point3d :=
  ⟨p.x, p.y, p.z, p.outline, p.fill⟩

/-- Point3d.toVector -/
def Point3d.toVector (p : Point3d) : Vector := ⟨p.x, p.y, p.z⟩

/-- Vector.toPoint3d -/
def Vector.toPoint3d (v : Vector) : Point3d := Point3d.init v.x v.y v.z

/-- Point3d._move : translate the coordinates in place. -/
def Point3d.move3 (p : Point3d) (dx dy dz : ℝ) : Point3d :=
  { p with x := p.x + dx, y := p.y + dy, z := p.z + dz }

/-- Line3d (source lines 345-395): two owned Point3d clones plus the config
options ["arrow", "fill", "width"]. -/
structure Line3d where
  p1 : Point3d
  p2 : Point3d
  arrow : String
  fill : String
  width : String

/-- Line3d.__init__ : stores p1.clone() and p2.clone(); the constructor then
calls self.setFill(DEFAULT_CONFIG["outline"]), so the fill option starts as
the toolkit's default outline color. -/
def Line3d.init (p1 p2 : Point3d) : Line3d :=
  ⟨p1.clone, p2.clone, DEFAULT_ARROW, DEFAULT_OUTLINE, DEFAULT_WIDTH⟩

/-- Line3d._move : moves both endpoints; the endpoints are owned detached
clones (canvas None), so their Point3d.move reduces to Point3d._move. -/
def Line3d.move3 (l : Line3d) (dx dy dz : ℝ) : Line3d :=
  { l with p1 := l.p1.move3 dx dy dz, p2 := l.p2.move3 dx dy dz }

/-- Line3d.setArrow (source lines 392-395): raise GraphicsError(BAD_OPTION)
unless the option is one of "first", "last", "both", "none"; otherwise
reconfigure the arrow option.  Returns the resulting object state paired with
the raised error, if any. -/
def Line3d.setArrow (option : String) (l : Line3d) : Line3d × Option PyError :=
  if option ∈ ["first", "last", "both", "none"] then
    ({ l with arrow := option }, Option.none)
  else
    (l, Option.some PyError.graphicsError)

/-- Triangle (source lines 397-452): three owned Point3d clones plus the
config options ["outline", "width", "fill"]. -/
structure Triangle where
  p1 : Point3d
  p2 : Point3d
  p3 : Point3d
  outline : String
  width : String
  fill : String

/-- Triangle.__init__ : stores clones of the three corner points. -/
def Triangle.init (p1 p2 p3 : Point3d) : Triangle :=
  ⟨p1.clone, p2.clone, p3.clone, DEFAULT_OUTLINE, DEFAULT_WIDTH, DEFAULT_FILL⟩

instance : Inhabited Triangle := ⟨Triangle.init default default default⟩

/-- Triangle._move -/
def Triangle.move3 (t : Triangle) (dx dy dz : ℝ) : Triangle :=
  { t with p1 := t.p1.move3 dx dy dz, p2 := t.p2.move3 dx dy dz,
           p3 := t.p3.move3 dx dy dz }

/-! ## 2D toolkit classes

Modelled from the spec: Line and Polygon are classes of the external 2D
graphics toolkit (Zelle's graphics module, imported by the source but not
part of src/).  They are 2D primitives: they have no getDepth and no
3-argument move.  Line stores clones of its two endpoints with config options
["arrow", "fill", "width"]; Polygon stores clones of its points with config
options ["outline", "width", "fill"]. -/

/-- The external toolkit's 2D Line class (only what the claims need). -/
structure Line2d where
  p1 : Point3d
  p2 : Point3d
  arrow : String
  fill : String
  width : String

/-- The external toolkit's 2D Polygon class (only what the claims need). -/
structure Polygon2d where
  points : List Point3d
  outline : String
  width : String
  fill : String

/-- Line3d.clone (source lines 375-378): constructs Line(self.p1, self.p2)
— the external toolkit's 2D Line class, not a Line3d — then copies the
config. -/
def Line3d.clone (l : Line3d) : Line2d :=
  ⟨l.p1.clone, l.p2.clone, l.arrow, l.fill, l.width⟩

/-- Triangle.clone (source lines 409-412): constructs
Polygon(self.p1, self.p2, self.p3) — the external toolkit's 2D Polygon class,
not a Triangle — then copies the config. -/
def Triangle.clone (t : Triangle) : Polygon2d :=
  ⟨[t.p1.clone, t.p2.clone, t.p3.clone], t.outline, t.width, t.fill⟩

/-! ## Unified object universe

A single type for every drawable object that can sit in a window's item list
or come out of a clone() call, with a kind tag to state which class an
object belongs to. -/

/-- The class of a drawable object. -/
inductive Kind where
  | point3d : Kind
  | line3d : Kind
  | triangle3d : Kind
  | line2d : Kind
  | polygon2d : Kind
deriving DecidableEq

/-- A drawable object: one of the three 3D primitive classes of graphics3d,
or one of the 2D toolkit classes. -/
inductive GObject where
  | point3d : Point3d → GObject
  | line3d : Line3d → GObject
  | triangle3d : Triangle → GObject
  | line2d : Line2d → GObject
  | polygon2d : Polygon2d → GObject

/-- The class an object belongs to. -/
def GObject.kind : GObject → Kind
  | .point3d _ => Kind.point3d
  | .line3d _ => Kind.line3d
  | .triangle3d _ => Kind.triangle3d
  | .line2d _ => Kind.line2d
  | .polygon2d _ => Kind.polygon2d

/-- clone() dispatched over the classes.  Point3d.clone returns a Point3d
(source lines 328-331); Line3d.clone returns a 2D Line (source line 376);
Triangle.clone returns a 2D Polygon (source line 410).  The 2D toolkit
classes clone to themselves (external toolkit behavior). -/
def GObject.clone : GObject → GObject
  | .point3d p => GObject.point3d p.clone
  | .line3d l => GObject.line2d l.clone
  | .triangle3d t => GObject.polygon2d t.clone
  | .line2d l => GObject.line2d ⟨l.p1.clone, l.p2.clone, l.arrow, l.fill, l.width⟩
  | .polygon2d pg =>
    GObject.polygon2d ⟨pg.points.map Point3d.clone, pg.outline, pg.width, pg.fill⟩

/-- _center3d dispatched over the classes (source lines 325-326, 370-373,
440-445).  The 2D toolkit classes have no _center3d (and no getDepth), which
is recorded as none. -/
noncomputable def GObject.center3d : GObject → Option (ℝ × ℝ × ℝ)
  | .point3d p => Option.some (p.x, p.y, p.z)
  | .line3d l =>
    Option.some (0.5 * (l.p1.x + l.p2.x), 0.5 * (l.p1.y + l.p2.y),
      0.5 * (l.p1.z + l.p2.z))
  | .triangle3d t =>
    let v1 := t.p1.toVector
    let v2 := t.p2.toVector
    let v3 := t.p3.toVector
    let vcenter := (v1 + v2 + v3) / (3.0 : ℝ)
    Option.some (vcenter.x, vcenter.y, vcenter.z)
  | .line2d _ => Option.none
  | .polygon2d _ => Option.none

/-- _move dispatched over the classes.  Only the 3D classes have the
3-argument _move; the 2D cases are never exercised by the claims. -/
def GObject.move3 : GObject → ℝ → ℝ → ℝ → GObject
  | .point3d p, dx, dy, dz => GObject.point3d (p.move3 dx dy dz)
  | .line3d l, dx, dy, dz => GObject.line3d (l.move3 dx dy dz)
  | .triangle3d t, dx, dy, dz => GObject.triangle3d (t.move3 dx dy dz)
  | .line2d l, _, _, _ => GObject.line2d l
  | .polygon2d pg, _, _, _ => GObject.polygon2d pg

/-! ## GraphWin3d (graphics3d.py lines 132-193) -/

/-- The state of a GraphWin3d that the claims depend on: whether the window
is open, its optional Camera (None until setCamera is called), and the list
of drawn items, in draw order. -/
structure GraphWin3d where
  isOpen : Bool
  cam : Option Camera
  items : List GObject

/-- GraphWin3d.toProjection (source lines 170-174): identity when there is
no camera, otherwise Camera.project. -/
def GraphWin3d.toProjection (w : GraphWin3d) (x y z : ℝ) : ℝ × ℝ × ℝ :=
  match w.cam with
  | Option.none => (x, y, z)
  | Option.some c => c.project x y z

/-- GraphicsObject3d.getDepth (source lines 286-294): the projected z of
_center3d through self.canvas.toProjection.  A 2D object has no getDepth
attribute at all (AttributeError); a detached object has canvas None, so
None.toProjection raises AttributeError. -/
noncomputable def GObject.getDepthE (o : GObject) (canvas : Option GraphWin3d) :
    Except PyError ℝ :=
  match o.center3d with
  | Option.none => Except.error PyError.attributeError
  | Option.some (x, y, z) =>
    match canvas with
    | Option.none => Except.error PyError.attributeError
    | Option.some w => Except.ok (w.toProjection x y z).2.2

/-- The depth key function nested inside GraphWin3d.redraw (source lines
184-188): my_item.getDepth(), with AttributeError caught and turned into
float("-inf") so that 2D objects always draw on top. -/
noncomputable def redrawDepthKey (canvas : Option GraphWin3d) (o : GObject) : WithBot ℝ :=
  match o.getDepthE canvas with
  | Except.ok d => (d : WithBot ℝ)
  | Except.error _ => ⊥

/-- The depth key used by redraw on a window's own items: every drawn item
has canvas = the window itself. -/
noncomputable def GraphWin3d.depth (w : GraphWin3d) (o : GObject) : WithBot ℝ :=
  redrawDepthKey (Option.some w) o

/-- The order in which GraphWin3d.redraw (source lines 182-193) processes the
drawn items: sorted(self.items, key=depth, reverse=True), i.e. a stable sort,
descending by depth key. -/
noncomputable def GraphWin3d.redrawOrder (w : GraphWin3d) : List GObject :=
  w.items.mergeSort (fun a b => decide (w.depth b ≤ w.depth a))

/-- GraphicsObject3d.move (source lines 259-284): first self._move
translates the owned coordinates; then, if the object is drawn on an open
canvas, the incremental screen-move branch runs — but every path through
that branch reads the undefined local names x, y, z (and canvas), so it
raises NameError before reaching the drawing surface, whether or not the
canvas has a camera.  Returns the resulting object state paired with the
raised error, if any. -/
def GObject.move (o : GObject) (canvas : Option GraphWin3d) (dx dy dz : ℝ) :
    GObject × Option PyError :=
  let moved := o.move3 dx dy dz
  match canvas with
  | Option.some w =>
    if w.isOpen then (moved, Option.some PyError.nameError)
    else (moved, Option.none)
  | Option.none => (moved, Option.none)

/-! ## Fan triangulation (make_pizza_polygon, graphics3d.py lines 39-59) -/

/-- The hub of the fan: the accumulated vector sum of the points divided by
the number of points, as computed by the source (lines 49-52). -/
noncomputable def pizzaHub (points : List Point3d) : Point3d :=
  ((points.foldl (fun c pt => c + pt.toVector) (⟨0, 0, 0⟩ : Vector)) /
    ((points.length : ℝ))).toPoint3d

/-- make_pizza_polygon : asserts that at least 3 points were given, then cuts
the polygon into triangular pizza slices meeting at the average position of
the points.  The assertion failure is modelled as an error result. -/
noncomputable def make_pizza_polygon (points : List Point3d) :
    Except String (List Triangle) :=
  if 3 ≤ points.length then
    Except.ok ((List.range points.length).map (fun i =>
      Triangle.init (points.getD i default)
        (points.getD ((i + 1) % points.length) default) (pizzaHub points)))
  else
    Except.error "Make pizza polygon needs 3 or more points"

/-- The arithmetic-mean point of a list of points, written from the claim's
words ("the hub is the arithmetic mean of all N input points") to be compared
with the hub the source computes. -/
noncomputable def specArithMean (points : List Point3d) : Point3d :=
  Point3d.init ((points.map (fun p => p.x)).sum / points.length)
    ((points.map (fun p => p.y)).sum / points.length)
    ((points.map (fun p => p.z)).sum / points.length)

/-! ## Helper lemmas -/

/-- Nested hypot is the Euclidean norm. -/
theorem Vector.mag_eq_sqrt (v : Vector) :
    v.mag = Real.sqrt (v.x ^ 2 + v.y ^ 2 + v.z ^ 2) := by
  unfold Vector.mag hypot
  rw [Real.sq_sqrt (by positivity)]

/-- The basis vector ux of any Camera has unit dot square. -/
theorem camera_ux_dot_ux (az alt roll : ℝ) :
    (Camera.init az alt roll).ux.dot (Camera.init az alt roll).ux = 1 := by
  have hz := Real.sin_sq_add_cos_sq (radians az)
  have hl := Real.sin_sq_add_cos_sq (radians alt)
  have hr := Real.sin_sq_add_cos_sq (radians roll)
  simp only [Camera.init, Vector.dot, Vector.smul_x, Vector.smul_y, Vector.smul_z,
    Vector.add_x, Vector.add_y, Vector.add_z, Vector.copy_x, Vector.copy_y, Vector.copy_z]
  set s1 := Real.sin (radians az)
  set c1 := Real.cos (radians az)
  set s2 := Real.sin (radians alt)
  set c2 := Real.cos (radians alt)
  set s3 := Real.sin (radians roll)
  set c3 := Real.cos (radians roll)
  linear_combination (c3 ^ 2 + s3 ^ 2 * s2 ^ 2) * hz + s3 ^ 2 * hl + hr

/-- The basis vector uy of any Camera has unit dot square. -/
theorem camera_uy_dot_uy (az alt roll : ℝ) :
    (Camera.init az alt roll).uy.dot (Camera.init az alt roll).uy = 1 := by
  have hz := Real.sin_sq_add_cos_sq (radians az)
  have hl := Real.sin_sq_add_cos_sq (radians alt)
  have hr := Real.sin_sq_add_cos_sq (radians roll)
  simp only [Camera.init, Vector.dot, Vector.smul_x, Vector.smul_y, Vector.smul_z,
    Vector.add_x, Vector.add_y, Vector.add_z, Vector.copy_x, Vector.copy_y, Vector.copy_z]
  set s1 := Real.sin (radians az)
  set c1 := Real.cos (radians az)
  set s2 := Real.sin (radians alt)
  set c2 := Real.cos (radians alt)
  set s3 := Real.sin (radians roll)
  set c3 := Real.cos (radians roll)
  linear_combination (s3 ^ 2 + c3 ^ 2 * s2 ^ 2) * hz + c3 ^ 2 * hl + hr

/-- The basis vector uz of any Camera has unit dot square. -/
theorem camera_uz_dot_uz (az alt roll : ℝ) :
    (Camera.init az alt roll).uz.dot (Camera.init az alt roll).uz = 1 := by
  have hz := Real.sin_sq_add_cos_sq (radians az)
  have hl := Real.sin_sq_add_cos_sq (radians alt)
  simp only [Camera.init, Vector.dot, Vector.smul_x, Vector.smul_y, Vector.smul_z,
    Vector.add_x, Vector.add_y, Vector.add_z, Vector.copy_x, Vector.copy_y, Vector.copy_z]
  set s1 := Real.sin (radians az)
  set c1 := Real.cos (radians az)
  set s2 := Real.sin (radians alt)
  set c2 := Real.cos (radians alt)
  linear_combination c2 ^ 2 * hz + hl

/-- ux and uy of any Camera are orthogonal. -/
theorem camera_ux_dot_uy (az alt roll : ℝ) :
    (Camera.init az alt roll).ux.dot (Camera.init az alt roll).uy = 0 := by
  have hz := Real.sin_sq_add_cos_sq (radians az)
  have hl := Real.sin_sq_add_cos_sq (radians alt)
  simp only [Camera.init, Vector.dot, Vector.smul_x, Vector.smul_y, Vector.smul_z,
    Vector.add_x, Vector.add_y, Vector.add_z, Vector.copy_x, Vector.copy_y, Vector.copy_z]
  set s1 := Real.sin (radians az)
  set c1 := Real.cos (radians az)
  set s2 := Real.sin (radians alt)
  set c2 := Real.cos (radians alt)
  set s3 := Real.sin (radians roll)
  set c3 := Real.cos (radians roll)
  linear_combination ((s2 ^ 2 - 1) * c3 * s3) * hz + (s3 * c3) * hl

/-- ux and uz of any Camera are orthogonal. -/
theorem camera_ux_dot_uz (az alt roll : ℝ) :
    (Camera.init az alt roll).ux.dot (Camera.init az alt roll).uz = 0 := by
  have hz := Real.sin_sq_add_cos_sq (radians az)
  simp only [Camera.init, Vector.dot, Vector.smul_x, Vector.smul_y, Vector.smul_z,
    Vector.add_x, Vector.add_y, Vector.add_z, Vector.copy_x, Vector.copy_y, Vector.copy_z]
  set s1 := Real.sin (radians az)
  set c1 := Real.cos (radians az)
  set s2 := Real.sin (radians alt)
  set c2 := Real.cos (radians alt)
  set s3 := Real.sin (radians roll)
  set c3 := Real.cos (radians roll)
  linear_combination (-(s3 * s2 * c2)) * hz

/-- uy and uz of any Camera are orthogonal. -/
theorem camera_uy_dot_uz (az alt roll : ℝ) :
    (Camera.init az alt roll).uy.dot (Camera.init az alt roll).uz = 0 := by
  have hz := Real.sin_sq_add_cos_sq (radians az)
  simp only [Camera.init, Vector.dot, Vector.smul_x, Vector.smul_y, Vector.smul_z,
    Vector.add_x, Vector.add_y, Vector.add_z, Vector.copy_x, Vector.copy_y, Vector.copy_z]
  set s1 := Real.sin (radians az)
  set c1 := Real.cos (radians az)
  set s2 := Real.sin (radians alt)
  set c2 := Real.cos (radians alt)
  set s3 := Real.sin (radians roll)
  set c3 := Real.cos (radians roll)
  linear_combination (-(c3 * s2 * c2)) * hz

/-! ## C1 -/

/-- C1 (counterexample): the claim that a Camera built from all-zero angles
satisfies project(x, y, z) == (y, z, -x) fails at the concrete world point
(0, 0, 1): the code projects it to (0, -1, 0), not (0, 1, 0), because the
initial up basis vector uy0 is (0, 0, -1). -/
theorem camera_zero_angles_project_claim_false :
    (Camera.init 0 0 0).project 0 0 1 ≠ ((0 : ℝ), (1 : ℝ), (0 : ℝ)) := by
  simp only [Camera.init, Camera.project, radians, Vector.dot, Vector.smul_x,
    Vector.smul_y, Vector.smul_z, Vector.add_x, Vector.add_y, Vector.add_z,
    Vector.copy_x, Vector.copy_y, Vector.copy_z, zero_mul, zero_div,
    Real.sin_zero, Real.cos_zero, Prod.mk.injEq, ne_eq]
  norm_num

/-- C1 (amended): for every world point (x, y, z), a Camera constructed with
azimuth = altitude = roll = 0 satisfies project(x, y, z) == (y, -z, -x)
exactly: the view looks along -x with +y to the right, and the projected
second coordinate is -z, not z. -/
theorem camera_zero_angles_project_eq (x y z : ℝ) :
    (Camera.init 0 0 0).project x y z = (y, -z, -x) := by
  simp only [Camera.init, Camera.project, radians, Vector.dot, Vector.smul_x,
    Vector.smul_y, Vector.smul_z, Vector.add_x, Vector.add_y, Vector.add_z,
    Vector.copy_x, Vector.copy_y, Vector.copy_z, zero_mul, zero_div,
    Real.sin_zero, Real.cos_zero, Prod.mk.injEq]
  norm_num

/-! ## C2 -/

/-- C2: for every Camera constructed from any three angles and every world
point (x, y, z), inverting the projection of the point gives back the point
exactly (over real arithmetic). -/
theorem camera_invert_project_round_trip (az alt roll x y z : ℝ) :
    (Camera.init az alt roll).invert
      ((Camera.init az alt roll).project x y z).1
      ((Camera.init az alt roll).project x y z).2.1
      ((Camera.init az alt roll).project x y z).2.2 = (x, y, z) := by
  have hz := Real.sin_sq_add_cos_sq (radians az)
  have hl := Real.sin_sq_add_cos_sq (radians alt)
  have hr := Real.sin_sq_add_cos_sq (radians roll)
  simp only [Camera.init, Camera.project, Camera.invert, Vector.dot,
    Vector.smul_x, Vector.smul_y, Vector.smul_z, Vector.add_x, Vector.add_y,
    Vector.add_z, Vector.copy_x, Vector.copy_y, Vector.copy_z, Prod.mk.injEq]
  set s1 := Real.sin (radians az)
  set c1 := Real.cos (radians az)
  set s2 := Real.sin (radians alt)
  set c2 := Real.cos (radians alt)
  set s3 := Real.sin (radians roll)
  set c3 := Real.cos (radians roll)
  refine ⟨?_, ?_, ?_⟩
  · linear_combination (x * (s1 ^ 2 + s2 ^ 2 * c1 ^ 2) + y * (s2 ^ 2 - 1) * s1 * c1
      - z * s2 * c1 * c2) * hr + (x * c1 ^ 2 + y * s1 * c1) * hl + x * hz
  · linear_combination (x * (s2 ^ 2 - 1) * s1 * c1 + y * (c1 ^ 2 + s2 ^ 2 * s1 ^ 2)
      - z * s2 * s1 * c2) * hr + (x * s1 * c1 + y * s1 ^ 2) * hl + y * hz
  · linear_combination (-(x * s2 * c1 * c2) - y * s2 * s1 * c2 + z * c2 ^ 2) * hr
      + z * hl

/-! ## C3 -/

/-- C3: for every choice of the three construction angles, the Camera's basis
vectors ux, uy, uz are pairwise orthogonal and each has magnitude 1 (over
real arithmetic). -/
theorem camera_basis_orthonormal (az alt roll : ℝ) :
    (Camera.init az alt roll).ux.dot (Camera.init az alt roll).uy = 0 ∧
    (Camera.init az alt roll).ux.dot (Camera.init az alt roll).uz = 0 ∧
    (Camera.init az alt roll).uy.dot (Camera.init az alt roll).uz = 0 ∧
    (Camera.init az alt roll).ux.mag = 1 ∧
    (Camera.init az alt roll).uy.mag = 1 ∧
    (Camera.init az alt roll).uz.mag = 1 := by
  refine ⟨camera_ux_dot_uy az alt roll, camera_ux_dot_uz az alt roll,
    camera_uy_dot_uz az alt roll, ?_, ?_, ?_⟩
  · have h := camera_ux_dot_ux az alt roll
    rw [Vector.mag_eq_sqrt]
    rw [show (Camera.init az alt roll).ux.x ^ 2 + (Camera.init az alt roll).ux.y ^ 2
        + (Camera.init az alt roll).ux.z ^ 2 = 1 by rw [Vector.dot] at h; linear_combination h]
    exact Real.sqrt_one
  · have h := camera_uy_dot_uy az alt roll
    rw [Vector.mag_eq_sqrt]
    rw [show (Camera.init az alt roll).uy.x ^ 2 + (Camera.init az alt roll).uy.y ^ 2
        + (Camera.init az alt roll).uy.z ^ 2 = 1 by rw [Vector.dot] at h; linear_combination h]
    exact Real.sqrt_one
  · have h := camera_uz_dot_uz az alt roll
    rw [Vector.mag_eq_sqrt]
    rw [show (Camera.init az alt roll).uz.x ^ 2 + (Camera.init az alt roll).uz.y ^ 2
        + (Camera.init az alt roll).uz.z ^ 2 = 1 by rw [Vector.dot] at h; linear_combination h]
    exact Real.sqrt_one

/-! ## C5 / C6 : fan triangulation -/

/-- Folding vector addition of the points over an accumulator sums the
coordinates componentwise. -/
theorem foldl_toVector_sum (points : List Point3d) (init : Vector) :
    points.foldl (fun c pt => c + pt.toVector) init =
      ⟨init.x + (points.map (fun p => p.x)).sum,
       init.y + (points.map (fun p => p.y)).sum,
       init.z + (points.map (fun p => p.z)).sum⟩ := by
  induction points generalizing init with
  | nil => simp
  | cons p ps ih =>
    rw [List.foldl_cons, ih]
    simp only [List.map_cons, List.sum_cons, Vector.add_x, Vector.add_y,
      Vector.add_z, Point3d.toVector, Vector.mk.injEq]
    refine ⟨by ring, by ring, by ring⟩

/-- The hub computed by make_pizza_polygon is the arithmetic mean of the
input points. -/
theorem pizzaHub_eq_specArithMean (points : List Point3d) :
    pizzaHub points = specArithMean points := by
  unfold pizzaHub specArithMean
  rw [foldl_toVector_sum]
  simp only [Vector.toPoint3d, Vector.div_x, Vector.div_y, Vector.div_z,
    zero_add, Point3d.init, Point3d.mk.injEq]
  refine ⟨by ring, by ring, by ring, trivial, trivial⟩

/-- C5: for every ordered sequence of at least 3 input points, fan
triangulation returns exactly N triangles, the i-th formed from input point
i, input point (i+1) mod N, and the hub, and the hub is the arithmetic mean
of all N input points. -/
theorem make_pizza_polygon_fan_spec (points : List Point3d)
    (h : 3 ≤ points.length) :
    ∃ ts, make_pizza_polygon points = Except.ok ts ∧
      ts.length = points.length ∧
      (∀ i, i < points.length →
        ts.getD i default =
          Triangle.init (points.getD i default)
            (points.getD ((i + 1) % points.length) default) (pizzaHub points)) ∧
      pizzaHub points = specArithMean points := by
  refine ⟨(List.range points.length).map (fun i =>
      Triangle.init (points.getD i default)
        (points.getD ((i + 1) % points.length) default) (pizzaHub points)),
    ?_, by simp, ?_, pizzaHub_eq_specArithMean points⟩
  · unfold make_pizza_polygon
    rw [if_pos h]
  · intro i hi
    have hlen : i < ((List.range points.length).map (fun i =>
        Triangle.init (points.getD i default)
          (points.getD ((i + 1) % points.length) default)
          (pizzaHub points))).length := by simpa using hi
    rw [List.getD_eq_getElem _ _ hlen, List.getElem_map, List.getElem_range]

/-- C5 witness: the theorem applied to a concrete triangle of three points. -/
theorem make_pizza_polygon_fan_spec_witness :
    3 ≤ ([Point3d.init 0 0 0, Point3d.init 3 0 0, Point3d.init 0 3 0] :
      List Point3d).length ∧
    (∃ ts, make_pizza_polygon
        [Point3d.init 0 0 0, Point3d.init 3 0 0, Point3d.init 0 3 0] =
          Except.ok ts ∧
      ts.length = ([Point3d.init 0 0 0, Point3d.init 3 0 0,
        Point3d.init 0 3 0] : List Point3d).length ∧
      (∀ i, i < ([Point3d.init 0 0 0, Point3d.init 3 0 0,
          Point3d.init 0 3 0] : List Point3d).length →
        ts.getD i default =
          Triangle.init (([Point3d.init 0 0 0, Point3d.init 3 0 0,
              Point3d.init 0 3 0] : List Point3d).getD i default)
            (([Point3d.init 0 0 0, Point3d.init 3 0 0,
              Point3d.init 0 3 0] : List Point3d).getD ((i + 1) %
              ([Point3d.init 0 0 0, Point3d.init 3 0 0,
                Point3d.init 0 3 0] : List Point3d).length) default)
            (pizzaHub [Point3d.init 0 0 0, Point3d.init 3 0 0,
              Point3d.init 0 3 0])) ∧
      pizzaHub [Point3d.init 0 0 0, Point3d.init 3 0 0, Point3d.init 0 3 0] =
        specArithMean [Point3d.init 0 0 0, Point3d.init 3 0 0,
          Point3d.init 0 3 0]) :=
  ⟨by simp, make_pizza_polygon_fan_spec _ (by simp)⟩

/-- C6: fan triangulation called with fewer than 3 points fails with the
insufficient-points assertion and returns no partial result; with 3 or more
points it returns a result and does not raise. -/
theorem make_pizza_polygon_insufficient_points (points : List Point3d) :
    (points.length < 3 →
      make_pizza_polygon points =
        Except.error "Make pizza polygon needs 3 or more points") ∧
    (3 ≤ points.length → ∃ ts, make_pizza_polygon points = Except.ok ts) := by
  constructor
  · intro h
    unfold make_pizza_polygon
    rw [if_neg (by omega)]
  · intro h
    exact ⟨(List.range points.length).map (fun i =>
        Triangle.init (points.getD i default)
          (points.getD ((i + 1) % points.length) default) (pizzaHub points)),
      by unfold make_pizza_polygon; rw [if_pos h]⟩

/-- C6 witness: two points fail, three points succeed. -/
theorem make_pizza_polygon_insufficient_points_witness :
    (make_pizza_polygon [Point3d.init 0 0 0, Point3d.init 1 0 0] =
      Except.error "Make pizza polygon needs 3 or more points") ∧
    (∃ ts, make_pizza_polygon
      [Point3d.init 0 0 0, Point3d.init 1 0 0, Point3d.init 0 1 0] =
        Except.ok ts) :=
  ⟨(make_pizza_polygon_insufficient_points _).1 (by simp),
   (make_pizza_polygon_insufficient_points _).2 (by simp)⟩

/-! ## C4 : redraw ordering -/

/-- An item's redraw depth key is bottom (float("-inf")) exactly when the
item is a 2D toolkit object, i.e. has no _center3d / getDepth. -/
theorem depth_eq_bot_iff (w : GraphWin3d) (o : GObject) :
    w.depth o = ⊥ ↔ o.center3d = Option.none := by
  unfold GraphWin3d.depth redrawDepthKey GObject.getDepthE
  cases h : o.center3d with
  | none => simp [h]
  | some c =>
    obtain ⟨x, y, z⟩ := c
    simp [h]

/-- The comparison redraw sorts with is transitive. -/
theorem redrawLe_trans (w : GraphWin3d) (a b c : GObject)
    (h1 : decide (w.depth b ≤ w.depth a) = true)
    (h2 : decide (w.depth c ≤ w.depth b) = true) :
    decide (w.depth c ≤ w.depth a) = true := by
  simp only [decide_eq_true_eq] at h1 h2 ⊢
  exact le_trans h2 h1

/-- The comparison redraw sorts with is total. -/
theorem redrawLe_total (w : GraphWin3d) (a b : GObject) :
    (decide (w.depth b ≤ w.depth a) || decide (w.depth a ≤ w.depth b)) = true := by
  simp only [Bool.or_eq_true, decide_eq_true_eq]
  exact le_total _ _

/-- C4: redraw processes the primitives attached to the surface in stable
descending order of their depth key: the processed list is a permutation of
the item list (each item redrawn exactly once); it is pairwise descending in
the depth key, so an item with strictly greater depth is rasterized before
one with smaller depth; ties and equal keys keep their original relative
order (stability, phrased as preservation of every equal-key fiber); and a
2D object (no depth, keyed -inf) comes after every 3D primitive. -/
theorem redraw_depth_sort_spec (w : GraphWin3d) :
    w.redrawOrder.Perm w.items ∧
    w.redrawOrder.Pairwise (fun a b => w.depth b ≤ w.depth a) ∧
    (∀ k : WithBot ℝ,
      w.redrawOrder.filter (fun o => decide (w.depth o = k)) =
        w.items.filter (fun o => decide (w.depth o = k))) ∧
    w.redrawOrder.Pairwise (fun a b =>
      a.center3d = Option.none → b.center3d = Option.none) := by
  have hsorted := @List.sorted_mergeSort GObject
    (fun a b => decide (w.depth b ≤ w.depth a))
    (redrawLe_trans w) (redrawLe_total w) w.items
  have hdesc : w.redrawOrder.Pairwise (fun a b => w.depth b ≤ w.depth a) := by
    unfold GraphWin3d.redrawOrder
    exact hsorted.imp (fun h => by simpa using h)
  refine ⟨List.mergeSort_perm w.items _, hdesc, ?_, ?_⟩
  · intro k
    have hfp : ∀ a ∈ w.items.filter (fun o => decide (w.depth o = k)),
        w.depth a = k := by
      intro a ha
      simpa using (List.mem_filter.mp ha).2
    have hpw : (w.items.filter (fun o => decide (w.depth o = k))).Pairwise
        (fun a b => decide (w.depth b ≤ w.depth a) = true) := by
      apply List.pairwise_of_forall_mem_list
      intro a ha b hb
      simp only [decide_eq_true_eq, hfp a ha, hfp b hb, le_refl]
    have hsub : List.Sublist (w.items.filter (fun o => decide (w.depth o = k)))
        (w.items.mergeSort (fun a b => decide (w.depth b ≤ w.depth a))) :=
      List.sublist_mergeSort (redrawLe_trans w) (redrawLe_total w) hpw
        (List.filter_sublist _)
    have hsub2 : List.Sublist (w.items.filter (fun o => decide (w.depth o = k)))
        (w.redrawOrder.filter (fun o => decide (w.depth o = k))) := by
      have h1 := hsub.filter (fun o => decide (w.depth o = k))
      rwa [List.filter_eq_self.mpr (fun a ha => by
        simpa using hfp a ha)] at h1
    have hperm : List.Perm (w.redrawOrder.filter (fun o => decide (w.depth o = k)))
        (w.items.filter (fun o => decide (w.depth o = k))) :=
      (List.mergeSort_perm w.items _).filter _
    exact (hsub2.eq_of_length hperm.length_eq.symm).symm
  · refine hdesc.imp ?_
    intro a b hle ha
    rw [← depth_eq_bot_iff] at ha ⊢
    rw [ha] at hle
    exact le_bot_iff.mp hle

/-! ## C7 : move -/

/-- C7: evaluating GraphicsObject3d.move at a drawn primitive.  On a
primitive drawn on an open surface, move(1, 0, 0) does translate the owned
coordinates, but the incremental screen-move branch then raises NameError
(it reads the undefined local names x, y, z), contradicting the claim that
the drawn case issues an incremental screen move without raising; on a
detached primitive, no error is raised. -/
theorem move_drawn_raises_name_error :
    (GObject.point3d (Point3d.init 0 0 0)).move
        (Option.some { isOpen := true, cam := Option.none, items := [] }) 1 0 0 =
      (GObject.point3d (Point3d.init 1 0 0), Option.some PyError.nameError) ∧
    (GObject.line3d (Line3d.init (Point3d.init 0 0 0) (Point3d.init 1 1 1))).move
        (Option.some { isOpen := true, cam := Option.none, items := [] }) 1 0 0 =
      (GObject.line3d (Line3d.init (Point3d.init 1 0 0) (Point3d.init 2 1 1)),
        Option.some PyError.nameError) ∧
    (GObject.point3d (Point3d.init 0 0 0)).move Option.none 1 0 0 =
      (GObject.point3d (Point3d.init 1 0 0), Option.none) := by
  refine ⟨?_, ?_, ?_⟩ <;>
    simp only [GObject.move, GObject.move3, Point3d.move3, Line3d.move3,
      Point3d.init, Point3d.clone, Line3d.init, Prod.mk.injEq, GObject.point3d.injEq,
      GObject.line3d.injEq, Point3d.mk.injEq, Line3d.mk.injEq, if_true] <;>
    norm_num

/-! ## C8 : depth of a detached primitive -/

/-- C8 (counterexample): querying the depth of a detached primitive through
getDepth IS an error: with canvas None, getDepth evaluates
None.toProjection, raising AttributeError; it does not return a value. -/
theorem getDepth_detached_raises :
    (GObject.point3d (Point3d.init 0 0 0)).getDepthE Option.none =
      Except.error PyError.attributeError ∧
    ¬ ∃ d : ℝ, (GObject.point3d (Point3d.init 0 0 0)).getDepthE Option.none =
      Except.ok d := by
  constructor
  · rfl
  · rintro ⟨d, hd⟩
    simp only [GObject.getDepthE, GObject.center3d] at hd
    exact Except.noConfusion hd

/-- C8 (amended): for every primitive not attached to any surface, getDepth
itself raises AttributeError, but the depth key function used by redraw
catches the AttributeError and yields the -inf key, so within redraw the
depth query does not propagate an error; and a surface without a Camera
projects as the identity. -/
theorem detached_depth_defaults (o : GObject) :
    o.getDepthE Option.none = Except.error PyError.attributeError ∧
    redrawDepthKey Option.none o = ⊥ ∧
    (∀ (b : Bool) (items : List GObject) (x y z : ℝ),
      (GraphWin3d.mk b Option.none items).toProjection x y z = (x, y, z)) := by
  have h1 : o.getDepthE Option.none = Except.error PyError.attributeError := by
    unfold GObject.getDepthE
    cases h : o.center3d with
    | none => rfl
    | some c =>
      obtain ⟨x, y, z⟩ := c
      rfl
  refine ⟨h1, ?_, fun b items x y z => rfl⟩
  unfold redrawDepthKey
  rw [h1]

/-! ## C9 : arrow mode -/

/-- C9: setting a Segment3 arrow mode succeeds exactly when the value is one
of the four enumerated options, updating the arrow option; any other value
raises GraphicsError(BAD_OPTION) and the primitive state is unchanged. -/
theorem setArrow_valid_options (l : Line3d) (v : String) :
    (v ∈ ["first", "last", "both", "none"] →
      Line3d.setArrow v l = ({ l with arrow := v }, Option.none)) ∧
    (v ∉ ["first", "last", "both", "none"] →
      Line3d.setArrow v l = (l, Option.some PyError.graphicsError)) := by
  constructor
  · intro h
    unfold Line3d.setArrow
    rw [if_pos h]
  · intro h
    unfold Line3d.setArrow
    rw [if_neg h]

/-- C9 witness: "diagonal" is rejected with the state unchanged, "none" is
accepted and recorded. -/
theorem setArrow_valid_options_witness :
    ("diagonal" ∉ ["first", "last", "both", "none"] ∧
      Line3d.setArrow "diagonal"
          (Line3d.init (Point3d.init 0 0 0) (Point3d.init 1 1 1)) =
        (Line3d.init (Point3d.init 0 0 0) (Point3d.init 1 1 1),
          Option.some PyError.graphicsError)) ∧
    ("none" ∈ ["first", "last", "both", "none"] ∧
      Line3d.setArrow "none"
          (Line3d.init (Point3d.init 0 0 0) (Point3d.init 1 1 1)) =
        ({ Line3d.init (Point3d.init 0 0 0) (Point3d.init 1 1 1) with
            arrow := "none" }, Option.none)) :=
  ⟨⟨by decide, (setArrow_valid_options _ _).2 (by decide)⟩,
   ⟨by decide, (setArrow_valid_options _ _).1 (by decide)⟩⟩

/-! ## C10 : clone -/

/-- C10: evaluating clone at concrete primitives of each kind.  Point3d
clones to a Point3d, but Line3d.clone constructs the 2D toolkit Line class
and Triangle.clone constructs the 2D toolkit Polygon class, so neither
returns a primitive of the same kind as the original. -/
theorem clone_kind_mismatch :
    (GObject.point3d (Point3d.init 0 0 0)).clone.kind = Kind.point3d ∧
    (GObject.line3d (Line3d.init (Point3d.init 0 0 0)
      (Point3d.init 1 1 1))).clone.kind = Kind.line2d ∧
    Kind.line2d ≠ Kind.line3d ∧
    (GObject.triangle3d (Triangle.init (Point3d.init 0 0 0)
      (Point3d.init 1 0 0) (Point3d.init 0 1 0))).clone.kind = Kind.polygon2d ∧
    Kind.polygon2d ≠ Kind.triangle3d :=
  ⟨rfl, rfl, by decide, rfl, by decide⟩

end Graphics3d
